import Mathlib

/-!
# Verification of the Analog-watch time-to-angle logic

Shallow embedding of `src/app/page.tsx`: the timezone resolver
`getTimeForTimeZone`, the angle calculations of the `Clock` component,
and the static per-hand metadata of the `Hand` component.

The platform facility `Intl.DateTimeFormat(...).formatToParts(date)` is
modelled by an environment `IntlEnv` providing which timezone identifier
strings are recognized and, for a recognized identifier, the list of
formatted parts; an unrecognized identifier makes the formatter throw,
modelled by `Except.error`. The numeric value of a formatted part
(`parseInt(part.value)` in the source) is modelled directly as a natural
number. A JavaScript `Date` is modelled by its local wall-clock accessors
`getHours` / `getMinutes` / `getSeconds`, the only accessors the source
uses.
-/

namespace AnalogWatch

/-- One part of the output of `formatToParts`: a `type` tag
(`"hour"`, `"minute"`, `"second"`, `"literal"`, ...) and the numeric
value that `parseInt(part.value)` yields in the source. -/
structure Part where
  type : String
  value : Nat
deriving DecidableEq

/-- A JavaScript `Date`, reduced to the three local wall-clock accessors
used by the fallback path of `getTimeForTimeZone`. -/
structure JSDate where
  getHours : Nat
  getMinutes : Nat
  getSeconds : Nat
deriving DecidableEq

/-- The platform `Intl` facility: which timezone identifier strings are
recognized, and the formatted parts produced for a recognized identifier
and a given date. -/
structure IntlEnv where
  recognized : String → Bool
  partsFor : String → JSDate → List Part

/-- `new Intl.DateTimeFormat('en-US', \x7btimeZone, hour12:false, ...\x7d).formatToParts(date)`:
returns the formatted parts for a recognized timezone identifier and
throws (a `RangeError`, modelled as `Except.error`) otherwise. -/
def formatToParts (env : IntlEnv) (timeZone : String) (date : JSDate) :
    Except String (List Part) :=
  if env.recognized timeZone then .ok (env.partsFor timeZone date)
  else .error ("invalid time zone: " ++ timeZone)

/-- The wall-clock record `\x7b hour, minute, second \x7d` returned by
`getTimeForTimeZone` (page.tsx lines 37-49). -/
structure WallClock where
  hour : Nat
  minute : Nat
  second : Nat
deriving DecidableEq

/-- The observable outcome of one call to `getTimeForTimeZone`: the
returned wall clock together with the `console.error` diagnostics
emitted during the call. -/
structure ResolveResult where
  clock : WallClock
  log : List String
deriving DecidableEq

/-- `getValue` (page.tsx lines 31-34): find the first part of the given
type and take its numeric value, or 0 when no such part exists. -/
def getValue (parts : List Part) (type : String) : Nat :=
  match parts.find? (fun p => p.type == type) with
  | some part => part.value
  | none => 0

/-- `getTimeForTimeZone` (page.tsx lines 21-51): format the date in the
given timezone and extract hour / minute / second, mapping a raw hour of
24 to 0; if the formatter throws (unrecognized identifier), log
`Invalid timeZone: <identifier>` and fall back to the machine's local
wall-clock time. -/
def getTimeForTimeZone (env : IntlEnv) (timeZone : String) (date : JSDate) :
    ResolveResult :=
  match formatToParts env timeZone date with
  | .ok parts =>
    let hour := getValue parts "hour"
    { clock :=
        { hour := if hour = 24 then 0 else hour
          minute := getValue parts "minute"
          second := getValue parts "second" }
      log := [] }
  | .error _ =>
    { clock :=
        { hour := date.getHours
          minute := date.getMinutes
          second := date.getSeconds }
      log := ["Invalid timeZone: " ++ timeZone] }

/-- `CSS_OFFSET` (page.tsx line 167): 0deg in CSS transforms is the
3 o'clock position; subtract 90 to make 0 the 12 o'clock position. -/
def CSS_OFFSET : ℚ := -90

/-- `secondRotation` (page.tsx line 170): 6 degrees per second. -/
def secondRotation (second : ℚ) : ℚ :=
  (second / 60) * 360 + CSS_OFFSET

/-- `minuteRotation` (page.tsx line 174): 6 degrees per minute plus a
smooth sub-minute sweep from the second. -/
def minuteRotation (minute second : ℚ) : ℚ :=
  (minute / 60) * 360 + (second / 60) * 6 + CSS_OFFSET

/-- The hour-hand rotation formula shared by `cetHourRotation` and
`eetHourRotation` (page.tsx lines 179-184): 12-hour format via `% 12`,
smoothed between hour ticks by the minute. -/
def hourRotation (hour : Nat) (minute : ℚ) : ℚ :=
  (((hour % 12 : Nat) : ℚ) / 12) * 360 + (minute / 60) * 30 + CSS_OFFSET

/-- The four hand rotations computed by the `Clock` component each tick. -/
structure HandAngles where
  secondRotation : ℚ
  minuteRotation : ℚ
  cetHourRotation : ℚ
  eetHourRotation : ℚ
deriving DecidableEq

/-- The angle-calculation block of `Clock` (page.tsx lines 162-184):
minute and second are shared from the CET (primary) wall clock, each
hour hand uses its own timezone's hour. -/
def clockAngles (cetTime eetTime : WallClock) : HandAngles :=
  let minute : ℚ := cetTime.minute
  let second : ℚ := cetTime.second
  { secondRotation := secondRotation second
    minuteRotation := minuteRotation minute second
    cetHourRotation := hourRotation cetTime.hour minute
    eetHourRotation := hourRotation eetTime.hour minute }

/-- The static per-hand metadata selected by the `switch (type)` in
`Hand` (page.tsx lines 58-89). -/
structure HandSpec where
  zIndex : Nat
  handLength : String
  colorFilter : String
  offset : ℚ
deriving DecidableEq

/-- The `switch (type)` of `Hand` (page.tsx lines 60-89); the
`'minute'` case is also the `default` case. -/
def handSpec (type : String) : HandSpec :=
  match type with
  | "cet-hour" => { zIndex := 37, handLength := "35%", colorFilter := "", offset := 30 }
  | "eet-hour" => { zIndex := 36, handLength := "35%", colorFilter := "", offset := 30 }
  | "second" => { zIndex := 40, handLength := "42%", colorFilter := "", offset := 0 }
  | _ => { zIndex := 38, handLength := "40%", colorFilter := "", offset := 17.5 }

/-- The center pivot dot's stacking order: the Tailwind class `z-50` on
the dot element of `Clock` (page.tsx line 192). -/
def pivotDotZIndex : Nat := 50

/-- C1: for both timezones, the hour-hand angle equals
`((hour % 12)/12)*360 + (minute/60)*30 - 90`, where `hour` is the
timezone's own hour and `minute` is the shared CET (primary) minute. -/
theorem hourHand_angle_formula (cetTime eetTime : WallClock) :
    (clockAngles cetTime eetTime).cetHourRotation =
      (((cetTime.hour % 12 : Nat) : ℚ) / 12) * 360 +
        ((cetTime.minute : ℚ) / 60) * 30 - 90 ∧
    (clockAngles cetTime eetTime).eetHourRotation =
      (((eetTime.hour % 12 : Nat) : ℚ) / 12) * 360 +
        ((cetTime.minute : ℚ) / 60) * 30 - 90 := by
  constructor <;> simp only [clockAngles, hourRotation, CSS_OFFSET] <;> ring

/-- C3: the minute-hand angle equals `(minute/60)*360 + (second/60)*6 - 90`,
with minute and second taken from the CET (primary) wall clock. -/
theorem minuteHand_angle_formula (cetTime eetTime : WallClock) :
    (clockAngles cetTime eetTime).minuteRotation =
      ((cetTime.minute : ℚ) / 60) * 360 + ((cetTime.second : ℚ) / 60) * 6 - 90 := by
  simp only [clockAngles, minuteRotation, CSS_OFFSET]
  ring

/-- C4: the second-hand angle equals `(second/60)*360 - 90`, lies in
`[-90, 270)` for a second in `[0, 60)`, and as elapsed seconds grow the
hand's input wraps modulo 60 — the angle restarts every 60 seconds and
drops back (from the angle at second 59 to the smaller angle at second 0)
instead of growing monotonically. -/
theorem secondHand_angle_formula (cetTime eetTime : WallClock)
    (hs : cetTime.second < 60) :
    (clockAngles cetTime eetTime).secondRotation =
        ((cetTime.second : ℚ) / 60) * 360 - 90 ∧
    -90 ≤ (clockAngles cetTime eetTime).secondRotation ∧
    (clockAngles cetTime eetTime).secondRotation < 270 ∧
    (∀ t : Nat, secondRotation (((t + 60) % 60 : Nat) : ℚ) =
        secondRotation ((t % 60 : Nat) : ℚ)) ∧
    secondRotation ((0 : Nat) : ℚ) < secondRotation ((59 : Nat) : ℚ) := by
  have h0 : (0 : ℚ) ≤ (cetTime.second : ℚ) := Nat.cast_nonneg _
  have h60 : ((cetTime.second : ℚ)) < 60 := by exact_mod_cast hs
  refine ⟨?_, ?_, ?_, ?_, ?_⟩
  · simp only [clockAngles, secondRotation, CSS_OFFSET]; ring
  · simp only [clockAngles, secondRotation, CSS_OFFSET]; linarith
  · simp only [clockAngles, secondRotation, CSS_OFFSET]; linarith
  · intro t; rw [Nat.add_mod_right]
  · norm_num [secondRotation, CSS_OFFSET]

/-- C4 witness: the theorem instantiated at the wall clock 12:34:56. -/
theorem secondHand_angle_formula_witness :
    (56 : Nat) < 60 ∧
    (clockAngles ⟨12, 34, 56⟩ ⟨13, 34, 56⟩).secondRotation =
      ((56 : ℚ) / 60) * 360 - 90 :=
  ⟨by decide, (secondHand_angle_formula ⟨12, 34, 56⟩ ⟨13, 34, 56⟩ (by decide)).1⟩

/-- C6: the difference between the two hour-hand angles is
`((h1 % 12) - (h2 % 12))/12 * 360`, independent of the shared minute
(and of the second): both hour hands sweep at the same smooth rate. -/
theorem hourHands_angle_difference (cetTime eetTime : WallClock) :
    (clockAngles cetTime eetTime).cetHourRotation -
        (clockAngles cetTime eetTime).eetHourRotation =
      (((cetTime.hour % 12 : Nat) : ℚ) - ((eetTime.hour % 12 : Nat) : ℚ))
        / 12 * 360 := by
  simp only [clockAngles, hourRotation, CSS_OFFSET]
  ring

/-- C7: for a fixed minute, the minute-hand angle is strictly increasing
in the second. -/
theorem minuteHand_strict_mono_in_second (m s₁ s₂ : ℚ) (h : s₁ < s₂) :
    minuteRotation m s₁ < minuteRotation m s₂ := by
  simp only [minuteRotation, CSS_OFFSET]
  linarith

/-- C7 witness: the theorem instantiated at minute 10, seconds 3 < 4. -/
theorem minuteHand_strict_mono_in_second_witness :
    (3 : ℚ) < 4 ∧ minuteRotation 10 3 < minuteRotation 10 4 :=
  ⟨by norm_num, minuteHand_strict_mono_in_second 10 3 4 (by norm_num)⟩

/-- C8: the angle calculation is a pure function of the wall-clock
components: two evaluations on wall clocks with identical hour, minute
and second fields yield identical angles for all four hands. -/
theorem clockAngles_deterministic (c₁ e₁ c₂ e₂ : WallClock)
    (hch : c₁.hour = c₂.hour) (hcm : c₁.minute = c₂.minute)
    (hcs : c₁.second = c₂.second) (heh : e₁.hour = e₂.hour)
    (hem : e₁.minute = e₂.minute) (hes : e₁.second = e₂.second) :
    clockAngles c₁ e₁ = clockAngles c₂ e₂ := by
  cases c₁; cases c₂; cases e₁; cases e₂
  simp only at hch hcm hcs heh hem hes
  subst hch; subst hcm; subst hcs; subst heh; subst hem; subst hes
  rfl

/-- C8 witness: the theorem instantiated at two structurally equal pairs
of wall clocks. -/
theorem clockAngles_deterministic_witness :
    (WallClock.hour ⟨9, 41, 5⟩ = WallClock.hour ⟨9, 41, 5⟩) ∧
    clockAngles ⟨9, 41, 5⟩ ⟨10, 41, 5⟩ = clockAngles ⟨9, 41, 5⟩ ⟨10, 41, 5⟩ :=
  ⟨rfl, clockAngles_deterministic ⟨9, 41, 5⟩ ⟨10, 41, 5⟩ ⟨9, 41, 5⟩ ⟨10, 41, 5⟩
    rfl rfl rfl rfl rfl rfl⟩

/-- C2: with an unrecognized timezone identifier the resolver does not
throw: it logs a diagnostic naming the identifier and returns the
machine's local wall-clock hour, minute and second for the date. -/
theorem getTimeForTimeZone_invalid_fallback (env : IntlEnv)
    (timeZone : String) (date : JSDate)
    (h : env.recognized timeZone = false) :
    getTimeForTimeZone env timeZone date =
      { clock :=
          { hour := date.getHours
            minute := date.getMinutes
            second := date.getSeconds }
        log := ["Invalid timeZone: " ++ timeZone] } := by
  simp [getTimeForTimeZone, formatToParts, h]

/-- C2 witness: the theorem instantiated at an environment recognizing
no timezone, the identifier "Mars/Olympus" and local time 10:20:30. -/
theorem getTimeForTimeZone_invalid_fallback_witness :
    (IntlEnv.mk (fun _ => false) (fun _ _ => [])).recognized "Mars/Olympus"
        = false ∧
    getTimeForTimeZone (IntlEnv.mk (fun _ => false) (fun _ _ => []))
        "Mars/Olympus" ⟨10, 20, 30⟩ =
      ⟨⟨10, 20, 30⟩, ["Invalid timeZone: Mars/Olympus"]⟩ :=
  ⟨rfl, getTimeForTimeZone_invalid_fallback _ _ _ rfl⟩

/-- C5: with a recognized timezone identifier, a raw formatter hour of 24
is normalized to 0 and every other raw hour passes through unchanged. -/
theorem getTimeForTimeZone_hour24 (env : IntlEnv) (timeZone : String)
    (date : JSDate) (h : env.recognized timeZone = true) :
    (getTimeForTimeZone env timeZone date).clock.hour =
      if getValue (env.partsFor timeZone date) "hour" = 24 then 0
      else getValue (env.partsFor timeZone date) "hour" := by
  simp [getTimeForTimeZone, formatToParts, h]

/-- C5 witness: an environment whose formatter reports raw hour 24 yields
hour 0, and one reporting raw hour 23 yields hour 23. -/
theorem getTimeForTimeZone_hour24_witness :
    (IntlEnv.mk (fun _ => true)
        (fun _ _ => [⟨"hour", 24⟩, ⟨"minute", 59⟩, ⟨"second", 58⟩])).recognized
      "Europe/Warsaw" = true ∧
    (getTimeForTimeZone
        (IntlEnv.mk (fun _ => true)
          (fun _ _ => [⟨"hour", 24⟩, ⟨"minute", 59⟩, ⟨"second", 58⟩]))
        "Europe/Warsaw" ⟨1, 2, 3⟩).clock.hour = 0 ∧
    (getTimeForTimeZone
        (IntlEnv.mk (fun _ => true) (fun _ _ => [⟨"hour", 23⟩]))
        "Europe/Warsaw" ⟨1, 2, 3⟩).clock.hour = 23 := by
  refine ⟨rfl, ?_, ?_⟩
  · rw [getTimeForTimeZone_hour24 _ _ _ rfl]; decide
  · rw [getTimeForTimeZone_hour24 _ _ _ rfl]; decide

/-- C10: on the non-throwing path, a requested part type absent from the
formatter output makes the corresponding wall-clock component 0 rather
than failing, so all three fields are always defined. -/
theorem getTimeForTimeZone_missing_part_zero (env : IntlEnv)
    (timeZone : String) (date : JSDate)
    (hrec : env.recognized timeZone = true) :
    ((env.partsFor timeZone date).find? (fun p => p.type == "hour") = none →
      (getTimeForTimeZone env timeZone date).clock.hour = 0) ∧
    ((env.partsFor timeZone date).find? (fun p => p.type == "minute") = none →
      (getTimeForTimeZone env timeZone date).clock.minute = 0) ∧
    ((env.partsFor timeZone date).find? (fun p => p.type == "second") = none →
      (getTimeForTimeZone env timeZone date).clock.second = 0) := by
  refine ⟨?_, ?_, ?_⟩ <;> intro h <;>
    simp [getTimeForTimeZone, formatToParts, hrec, getValue, h]

/-- C10 witness: the theorem instantiated at an environment whose
formatter returns no parts at all. -/
theorem getTimeForTimeZone_missing_part_zero_witness :
    (IntlEnv.mk (fun _ => true) (fun _ _ => [])).recognized "Europe/Athens"
        = true ∧
    (getTimeForTimeZone (IntlEnv.mk (fun _ => true) (fun _ _ => []))
        "Europe/Athens" ⟨7, 8, 9⟩).clock.hour = 0 ∧
    (getTimeForTimeZone (IntlEnv.mk (fun _ => true) (fun _ _ => []))
        "Europe/Athens" ⟨7, 8, 9⟩).clock.minute = 0 ∧
    (getTimeForTimeZone (IntlEnv.mk (fun _ => true) (fun _ _ => []))
        "Europe/Athens" ⟨7, 8, 9⟩).clock.second = 0 :=
  ⟨rfl,
    (getTimeForTimeZone_missing_part_zero _ "Europe/Athens" ⟨7, 8, 9⟩ rfl).1 rfl,
    (getTimeForTimeZone_missing_part_zero _ "Europe/Athens" ⟨7, 8, 9⟩ rfl).2.1 rfl,
    (getTimeForTimeZone_missing_part_zero _ "Europe/Athens" ⟨7, 8, 9⟩ rfl).2.2 rfl⟩

/-- C9: both hour hands stack strictly below the minute hand, the minute
hand strictly below the second hand, and the pivot dot strictly above
all four hands. -/
theorem hand_stacking_order :
    (handSpec "cet-hour").zIndex < (handSpec "minute").zIndex ∧
    (handSpec "eet-hour").zIndex < (handSpec "minute").zIndex ∧
    (handSpec "minute").zIndex < (handSpec "second").zIndex ∧
    (handSpec "cet-hour").zIndex < pivotDotZIndex ∧
    (handSpec "eet-hour").zIndex < pivotDotZIndex ∧
    (handSpec "minute").zIndex < pivotDotZIndex ∧
    (handSpec "second").zIndex < pivotDotZIndex := by
  decide

end AnalogWatch
